import Mathlib

/-!
Shallow embedding of the selected-item list component
(`src/components/pill/private/selected-listbox.jsx`) and of the
WelcomeMat progress computation (`WelcomeMat.getCount`), together with
theorems settling the specification claims about them.

JavaScript values are embedded by behavioural shape: an object field
that is absent or falsy is `none` / the `absent` constructor, a truthy
string is `some s`.  Rendering is a pure function from props to a
markup value; an undefined-field access (JS `TypeError`) is an
`Except.error`.
-/

set_option autoImplicit false

namespace SelectedListbox

/-- A pre-built renderable visual (a React element supplied by the caller).
`containerClassName` is the one prop the component may overwrite via
`React.cloneElement`; every other prop of the element is kept opaque in
`otherProps`. -/
structure PrebuiltVisual where
  containerClassName : Option String
  otherProps : List (String × String)
deriving DecidableEq, Repr

/-- A plain descriptor object supplied as `option.icon` or `option.avatar`.
All fields optional; `none` stands for an absent or falsy (e.g. empty
string) field, matching the JS truthiness tests in the source. -/
structure VisualDescriptor where
  category : Option String
  name : Option String
  title : Option String
  imgSrc : Option String
  variant : Option String
deriving DecidableEq, Repr

/-- The value of `option.icon` / `option.avatar`: absent (undefined/null),
a pre-built React component, or a plain descriptor object. -/
inductive VisualProp where
  | absent
  | prebuilt (el : PrebuiltVisual)
  | descriptor (d : VisualDescriptor)
deriving DecidableEq, Repr

/-- One selection record (an `Option` in the spec's data model). -/
structure OptionRec where
  id : String
  label : String
  icon : VisualProp
  avatar : VisualProp
deriving DecidableEq, Repr

/-- A resolved visual: a cloned pre-built element, a synthesized
`<Icon category name title>` element, or a synthesized
`<Avatar imgSrc title variant>` element. -/
inductive Visual where
  | prebuilt (el : PrebuiltVisual)
  | iconEl (category name title : String)
  | avatarEl (imgSrc title variant : String)
deriving DecidableEq, Repr

def pillIconContainerClass : String := "slds-pill__icon_container"

/-- Embedding of `getIcon` (selected-listbox.jsx lines 114-135). -/
def getIcon (option : OptionRec) : Option Visual :=
  match option.icon with
  | .absent => none
  | .prebuilt el =>
    some (.prebuilt { el with containerClassName := some pillIconContainerClass })
  | .descriptor d =>
    match d.category, d.name with
    | some c, some n => some (.iconEl c n (d.title.getD option.label))
    | _, _ => none

/-- Embedding of `getAvatar` (selected-listbox.jsx lines 91-112). -/
def getAvatar (option : OptionRec) : Option Visual :=
  match option.avatar with
  | .absent => none
  | .prebuilt el =>
    some (.prebuilt { el with containerClassName := some pillIconContainerClass })
  | .descriptor d =>
    match d.imgSrc with
    | some src => some (.avatarEl src (d.title.getD option.label) (d.variant.getD "user"))
    | none => none

/-- The per-item visual resolution the renderer performs
(selected-listbox.jsx lines 172-173): the icon, and the avatar only
when no icon resolved. -/
def resolveVisual (option : OptionRec) : Option Visual × Option Visual :=
  let icon := getIcon option
  let avatar := if icon.isSome then none else getAvatar option
  (icon, avatar)

/-- The `variant` prop: one of `base`, `inline-listbox`, `readonly`. -/
inductive Variant where
  | base
  | inlineListbox
  | readonly
deriving DecidableEq, Repr

/-- The event payload (`data`) handed to the pill event handlers.  The
component spreads it and sets an `index` field; any other fields are
kept opaque in `payload`. -/
structure EventData where
  index : Option Int
  payload : Nat
deriving DecidableEq, Repr

/-- An opaque DOM event object. -/
structure Event where
  tag : Nat
deriving DecidableEq, Repr

/-- The caller-supplied `events` prop.  `α` is the (opaque) result type
of the caller's handlers, so that what a handler was called with can be
observed. -/
structure EventsProp (α : Type) where
  onClickPill : Event → EventData → α
  onRequestFocus : Event → EventData → α
  onRequestFocusOnNextPill : Event → EventData → α
  onRequestFocusOnPreviousPill : Event → EventData → α
  onRequestRemove : Event → EventData → α
  onBlurPill : Event → EventData → α

/-- The `assistiveText` prop (shape of selected-listbox.jsx lines 30-34). -/
structure AssistiveTextProp where
  label : Option String
  removePill : Option String
  selectedListboxLabel : Option String
deriving DecidableEq, Repr

/-- The `labels` prop; the renderer reads `labels.removePillTitle`. -/
structure LabelsProp where
  label : Option String
  removePillTitle : Option String
deriving DecidableEq, Repr

/-- The props of `SelectedListBox`.  `assistiveText` and `labels` are
`Option` because they have no default (`defaultProps` only defaults
`renderAtSelectionLength` to 1): `none` is an undefined prop, and a
field access on it is a TypeError. -/
structure SelectedListBoxProps (α : Type) where
  activeOptionIndex : Int
  assistiveText : Option AssistiveTextProp
  events : EventsProp α
  id : Option String
  isInline : Bool
  isPillContainer : Bool
  labels : Option LabelsProp
  renderAtSelectionLength : Nat
  selection : List OptionRec
  listboxHasFocus : Bool
  variant : Variant

/-- The events object the renderer wires onto each Pill
(selected-listbox.jsx lines 187-206). -/
structure PillEvents (α : Type) where
  onBlur : Event → EventData → α
  onClick : Event → EventData → α
  onRequestFocusOnNextPill : Event → EventData → α
  onRequestFocusOnPreviousPill : Event → EventData → α
  onRequestRemove : Event → EventData → α
  onRequestFocus : Event → EventData → α

/-- One rendered Pill (the props handed to `<Pill .../>`,
selected-listbox.jsx lines 181-215). -/
structure RenderedPill (α : Type) where
  active : Bool
  assistiveTextRemove : Option String
  avatar : Option Visual
  events : PillEvents α
  eventDataOption : OptionRec
  icon : Option Visual
  labelLabel : String
  labelRemoveTitle : Option String
  requestFocus : Bool
  tabIndex : Int

/-- One rendered `<li>` item: its React key and its Pill. -/
structure RenderedItem (α : Type) where
  key : String
  pill : RenderedPill α

/-- The rendered listbox: the container `<div>` and `<ul>` attributes
and the list of items. -/
structure RenderedListbox (α : Type) where
  containerClassName : Option String
  containerId : Option String
  ulClasses : List String
  ariaLabel : Option String
  items : List (RenderedItem α)

/-- A JS TypeError from accessing a field of an undefined prop. -/
inductive RenderError where
  | typeError (field : String)
deriving DecidableEq, Repr

/-- The per-item active decision (selected-listbox.jsx lines 163-171),
the spec's `isActive`. -/
def isActive (renderIndex : Nat) (activeOptionIndex : Int) (variant : Variant)
    (selectionLength : Nat) : Bool :=
  let setActiveBasedOnstateFromParent := (renderIndex : Int) == activeOptionIndex
  let listboxRenderedForFirstTime :=
    (activeOptionIndex == -1 && renderIndex == 0) ||
    (variant == Variant.readonly && selectionLength != 1 && renderIndex == 0)
  setActiveBasedOnstateFromParent || listboxRenderedForFirstTime

/-- The item the map body builds once `assistiveText` and `labels` are
known to be defined (selected-listbox.jsx lines 162-217). -/
def mkItem {α : Type} (props : SelectedListBoxProps α) (a : AssistiveTextProp)
    (l : LabelsProp) (renderIndex : Nat) (option : OptionRec) : RenderedItem α :=
  let active := isActive renderIndex props.activeOptionIndex props.variant
    props.selection.length
  let icon := getIcon option
  let avatar := if icon.isSome then none else getAvatar option
  { key := (match props.id with
      | some s => s
      | none => "undefined") ++ "-list-item-" ++ option.id,
    pill := {
      active := active,
      assistiveTextRemove := a.removePill,
      avatar := avatar,
      events := {
        onBlur := props.events.onBlurPill,
        onClick := fun event data =>
          props.events.onClickPill event { data with index := some (renderIndex : Int) },
        onRequestFocusOnNextPill := props.events.onRequestFocusOnNextPill,
        onRequestFocusOnPreviousPill := props.events.onRequestFocusOnPreviousPill,
        onRequestRemove := fun event data =>
          props.events.onRequestRemove event { data with index := some (renderIndex : Int) },
        onRequestFocus := props.events.onRequestFocus },
      eventDataOption := option,
      icon := icon,
      labelLabel := option.label,
      labelRemoveTitle := l.removePillTitle,
      requestFocus := props.listboxHasFocus,
      tabIndex := if active then 0 else -1 } }

/-- The map body for one item: reads `props.labels.removePillTitle`, so
an undefined `labels` prop is a TypeError. -/
def renderItem {α : Type} (props : SelectedListBoxProps α) (a : AssistiveTextProp)
    (renderIndex : Nat) (option : OptionRec) : Except RenderError (RenderedItem α) :=
  match props.labels with
  | none => .error (.typeError "labels")
  | some l => .ok (mkItem props a l renderIndex option)

/-- `props.selection.map((option, renderIndex) => ...)`, with the render
index threaded explicitly. -/
def renderItems {α : Type} (props : SelectedListBoxProps α) (a : AssistiveTextProp) :
    Nat → List OptionRec → Except RenderError (List (RenderedItem α))
  | _, [] => .ok []
  | i, o :: rest =>
    match renderItem props a i o with
    | .error e => .error e
    | .ok it =>
      match renderItems props a (i + 1) rest with
      | .error e => .error e
      | .ok items => .ok (it :: items)

/-- The container `<div>`/`<ul>` and its items, built once
`assistiveText` is known to be defined. -/
def renderContainer {α : Type} (props : SelectedListBoxProps α) (a : AssistiveTextProp) :
    Except RenderError (Option (RenderedListbox α)) :=
  match renderItems props a 0 props.selection with
  | .error e => .error e
  | .ok items =>
    .ok (some {
      containerClassName :=
        if props.isPillContainer then some "slds-pill_container" else none,
      containerId := props.id,
      ulClasses := "slds-listbox" ::
        (if props.isInline then ["slds-listbox_inline"]
         else ["slds-listbox_horizontal", "slds-p-top_xxx-small"]),
      ariaLabel := a.selectedListboxLabel,
      items := items })

/-- Embedding of the `SelectedListBox` render function
(selected-listbox.jsx lines 137-221): below the render threshold it
renders nothing (`.ok none`); otherwise it reads
`props.assistiveText.selectedListboxLabel` for the group label
(TypeError when `assistiveText` is undefined) and maps the selection to
items. -/
def render {α : Type} (props : SelectedListBoxProps α) :
    Except RenderError (Option (RenderedListbox α)) :=
  if props.renderAtSelectionLength ≤ props.selection.length then
    match props.assistiveText with
    | none => .error (.typeError "assistiveText")
    | some a => renderContainer props a
  else .ok none

/-- The item list the map produces when `labels` is defined: one
`mkItem` per Option, indices threaded from `start`. -/
def mkItems {α : Type} (props : SelectedListBoxProps α) (a : AssistiveTextProp)
    (l : LabelsProp) : Nat → List OptionRec → List (RenderedItem α)
  | _, [] => []
  | i, o :: rest => mkItem props a l i o :: mkItems props a l (i + 1) rest

/-- An Option with no visuals, used in concrete examples. -/
def plainOpt (s : String) : OptionRec :=
  { id := s, label := s, icon := .absent, avatar := .absent }

/-- Caller handlers that discard their arguments, for examples where
the handler results are irrelevant. -/
def unitEvents : EventsProp Unit :=
  { onClickPill := fun _ _ => (),
    onRequestFocus := fun _ _ => (),
    onRequestFocusOnNextPill := fun _ _ => (),
    onRequestFocusOnPreviousPill := fun _ _ => (),
    onRequestRemove := fun _ _ => (),
    onBlurPill := fun _ _ => () }

/-- A fully defined concrete props value: two selected options, default
render threshold, active index 1. -/
def baseProps : SelectedListBoxProps Unit :=
  { activeOptionIndex := 1,
    assistiveText := some
      { label := none, removePill := some "Press delete or backspace to remove",
        selectedListboxLabel := some "Selected Options:" },
    events := unitEvents,
    id := some "pill-listbox",
    isInline := false,
    isPillContainer := true,
    labels := some { label := none, removePillTitle := some "Remove" },
    renderAtSelectionLength := 1,
    selection := [plainOpt "acme", plainOpt "salesforce"],
    listboxHasFocus := false,
    variant := Variant.base }

/-- An arbitrary rendered item, used as a fallback when extracting from
a rendered listbox. -/
def unitFallbackItem : RenderedItem Unit :=
  { key := "",
    pill := {
      active := false,
      assistiveTextRemove := none,
      avatar := none,
      events := {
        onBlur := fun _ _ => (),
        onClick := fun _ _ => (),
        onRequestFocusOnNextPill := fun _ _ => (),
        onRequestFocusOnPreviousPill := fun _ _ => (),
        onRequestRemove := fun _ _ => (),
        onRequestFocus := fun _ _ => () },
      eventDataOption := plainOpt "fallback",
      icon := none,
      labelLabel := "",
      labelRemoveTitle := none,
      requestFocus := false,
      tabIndex := -1 } }

/-- The listbox rendered from `baseProps`. -/
def basePropsRendered : RenderedListbox Unit :=
  match render baseProps with
  | .ok (some r) => r
  | _ => { containerClassName := none, containerId := none, ulClasses := [],
           ariaLabel := none, items := [] }

/-- The item at render index 1 of the `baseProps` render. -/
def basePropsItem1 : RenderedItem Unit :=
  match basePropsRendered.items.get? 1 with
  | some it => it
  | none => unitFallbackItem

/-- Caller handlers that echo the event payload they were invoked with,
so that the payload the caller's handler receives is observable. -/
def echoEvents : EventsProp EventData :=
  { onClickPill := fun _ d => d,
    onRequestFocus := fun _ d => d,
    onRequestFocusOnNextPill := fun _ d => d,
    onRequestFocusOnPreviousPill := fun _ d => d,
    onRequestRemove := fun _ d => d,
    onBlurPill := fun _ d => d }

/-- Concrete props with three options and echoing caller handlers. -/
def c1Props : SelectedListBoxProps EventData :=
  { activeOptionIndex := 0,
    assistiveText := some
      { label := none, removePill := some "Remove", selectedListboxLabel := some "Selected" },
    events := echoEvents,
    id := some "listbox",
    isInline := false,
    isPillContainer := true,
    labels := some { label := none, removePillTitle := some "Remove" },
    renderAtSelectionLength := 1,
    selection := [plainOpt "a", plainOpt "b", plainOpt "c"],
    listboxHasFocus := false,
    variant := Variant.base }

/-- A fallback rendered item over `EventData` results. -/
def echoFallbackItem : RenderedItem EventData :=
  { key := "",
    pill := {
      active := false,
      assistiveTextRemove := none,
      avatar := none,
      events := {
        onBlur := fun _ d => d,
        onClick := fun _ d => d,
        onRequestFocusOnNextPill := fun _ d => d,
        onRequestFocusOnPreviousPill := fun _ d => d,
        onRequestRemove := fun _ d => d,
        onRequestFocus := fun _ d => d },
      eventDataOption := plainOpt "fallback",
      icon := none,
      labelLabel := "",
      labelRemoveTitle := none,
      requestFocus := false,
      tabIndex := -1 } }

/-- The listbox rendered from `c1Props`. -/
def c1Rendered : RenderedListbox EventData :=
  match render c1Props with
  | .ok (some r) => r
  | _ => { containerClassName := none, containerId := none, ulClasses := [],
           ariaLabel := none, items := [] }

/-- The item at render index 2 of the `c1Props` render. -/
def c1Item2 : RenderedItem EventData :=
  match c1Rendered.items.get? 2 with
  | some it => it
  | none => echoFallbackItem

/-- The payload the caller's focus-request handler receives when the
focus-request handler of the token at render index 2 is triggered with
a payload carrying no index field. -/
def c1FocusPayload : EventData :=
  c1Item2.pill.events.onRequestFocus { tag := 0 } { index := none, payload := 7 }

/-- Props identical to `baseProps` but with an empty selection and both
`assistiveText` and `labels` undefined. -/
def c3Props : SelectedListBoxProps Unit :=
  { baseProps with selection := [], assistiveText := none, labels := none }

/-- Props identical to `baseProps` but with the `labels` prop undefined. -/
def c9Props : SelectedListBoxProps Unit :=
  { baseProps with labels := none }

end SelectedListbox

namespace WelcomeMat

/-- JavaScript number, restricted to the values the progress computation
can produce: NaN, signed infinity, or an exact (rational) finite value. -/
inductive JSNum where
  | nan
  | inf (positive : Bool)
  | num (val : ℚ)
deriving DecidableEq, Repr

/-- JS division on `JSNum`: `0/0` is NaN, a nonzero value divided by
zero is a signed infinity, finite by finite is exact division. -/
def jsDiv : JSNum → JSNum → JSNum
  | .nan, _ => .nan
  | .inf _, .nan => .nan
  | .num _, .nan => .nan
  | .inf _, .inf _ => .nan
  | .inf p, .num b => .inf (p == decide (0 ≤ b))
  | .num _, .inf _ => .num 0
  | .num a, .num b =>
    if b = 0 then (if a = 0 then .nan else .inf (decide (0 < a))) else .num (a / b)

/-- JS multiplication on `JSNum`: NaN propagates, `0 * Infinity` is NaN. -/
def jsMul : JSNum → JSNum → JSNum
  | .nan, _ => .nan
  | .inf _, .nan => .nan
  | .num _, .nan => .nan
  | .inf p, .inf q => .inf (p == q)
  | .inf p, .num b => if b = 0 then .nan else .inf (p == decide (0 < b))
  | .num a, .inf q => if a = 0 then .nan else .inf (q == decide (0 < a))
  | .num a, .num b => .num (a * b)

/-- One WelcomeMat child, reduced to the single field `getCount` reads
(`c.props.isComplete`, truthiness as a Bool). -/
structure WMChild where
  isComplete : Bool
deriving DecidableEq, Repr

/-- The component state fields written by `getCount` via `setState`. -/
structure WelcomeMatState where
  completedSteps : Nat
  totalSteps : Nat
  progress : JSNum
deriving DecidableEq, Repr

/-- Embedding of `WelcomeMat.getCount` (lines 95-106 of the WelcomeMat
source): counts the children, counts the complete ones, and computes
`completedSteps / totalSteps * 100` in JS number arithmetic. -/
def getCount (children : List WMChild) : WelcomeMatState :=
  let totalSteps := children.length
  let completedSteps := (children.filter (fun c => c.isComplete)).length
  let progress := jsMul (jsDiv (.num (completedSteps : ℚ)) (.num (totalSteps : ℚ))) (.num 100)
  { completedSteps := completedSteps, totalSteps := totalSteps, progress := progress }

end WelcomeMat

namespace SelectedListbox

/-- C5: for every Option for which an icon resolves (a pre-built visual,
or a descriptor carrying both a category and a name), the resolved
avatar is null: icon takes precedence over avatar. -/
theorem c5_icon_precedence (opt : OptionRec)
    (h : (∃ el, opt.icon = .prebuilt el) ∨
      ∃ d, opt.icon = .descriptor d ∧ d.category.isSome ∧ d.name.isSome) :
    (resolveVisual opt).1.isSome ∧ (resolveVisual opt).2 = none := by
  have hicon : (getIcon opt).isSome := by
    rcases h with ⟨el, hel⟩ | ⟨d, hd, hc, hn⟩
    · simp [getIcon, hel]
    · rcases Option.isSome_iff_exists.mp hc with ⟨c, hc⟩
      rcases Option.isSome_iff_exists.mp hn with ⟨n, hn⟩
      simp [getIcon, hd, hc, hn]
  refine ⟨hicon, ?_⟩
  simp [resolveVisual, hicon]

/-- C5 witness: a concrete Option with a category/name icon descriptor
and an avatar descriptor resolves to an icon and no avatar. -/
theorem c5_icon_precedence_witness :
    (resolveVisual
      { id := "1", label := "Acme",
        icon := .descriptor
          { category := some "standard", name := some "account",
            title := none, imgSrc := none, variant := none },
        avatar := .descriptor
          { category := none, name := none, title := none,
            imgSrc := some "a.png", variant := none } }).1.isSome ∧
    (resolveVisual
      { id := "1", label := "Acme",
        icon := .descriptor
          { category := some "standard", name := some "account",
            title := none, imgSrc := none, variant := none },
        avatar := .descriptor
          { category := none, name := none, title := none,
            imgSrc := some "a.png", variant := none } }).2 = none :=
  c5_icon_precedence _ (Or.inr ⟨_, rfl, by decide, by decide⟩)

/-- C6: a pre-built icon visual is passed through with only
`containerClassName` set to the pill container class; its other
properties are unchanged. -/
theorem c6_prebuilt_icon_passthrough (opt : OptionRec) (el : PrebuiltVisual)
    (h : opt.icon = .prebuilt el) :
    getIcon opt = some (.prebuilt
      { containerClassName := some pillIconContainerClass,
        otherProps := el.otherProps }) := by
  simp [getIcon, h]

/-- C6 witness: a concrete pre-built visual keeps its other props and
gets the container class. -/
theorem c6_prebuilt_icon_passthrough_witness :
    getIcon
      { id := "1", label := "Acme",
        icon := .prebuilt { containerClassName := some "old", otherProps := [("size", "small")] },
        avatar := .absent } =
    some (.prebuilt
      { containerClassName := some pillIconContainerClass,
        otherProps := [("size", "small")] }) :=
  c6_prebuilt_icon_passthrough _ _ rfl

/-- C7: a descriptor icon with both category and name synthesizes an
Icon whose title is the descriptor's title when present, and the
Option's label otherwise. -/
theorem c7_descriptor_icon_title (opt : OptionRec) (d : VisualDescriptor)
    (c n : String) (h : opt.icon = .descriptor d)
    (hc : d.category = some c) (hn : d.name = some n) :
    getIcon opt = some (.iconEl c n (match d.title with
      | some t => t
      | none => opt.label)) := by
  cases ht : d.title <;> simp [getIcon, h, hc, hn, ht, Option.getD]

/-- C7 witness: a `standard:account` icon descriptor with no title
resolves with the Option's label as its title. -/
theorem c7_descriptor_icon_title_witness :
    getIcon
      { id := "1", label := "Acme",
        icon := .descriptor
          { category := some "standard", name := some "account",
            title := none, imgSrc := none, variant := none },
        avatar := .absent } =
    some (.iconEl "standard" "account" "Acme") :=
  c7_descriptor_icon_title _ _ "standard" "account" rfl rfl rfl

/-- C8: visual resolution is total into `Option Visual` and degrades
silently: the icon is null exactly when `option.icon` is absent or a
descriptor missing its category or name, and the avatar is null exactly
when `option.avatar` is absent or a descriptor missing its `imgSrc`. -/
theorem c8_visual_resolution_total (opt : OptionRec) :
    (getIcon opt = none ↔ (opt.icon = .absent ∨
      ∃ d, opt.icon = .descriptor d ∧ (d.category = none ∨ d.name = none))) ∧
    (getAvatar opt = none ↔ (opt.avatar = .absent ∨
      ∃ d, opt.avatar = .descriptor d ∧ d.imgSrc = none)) := by
  constructor
  · cases hio : opt.icon with
    | absent => simp [getIcon, hio]
    | prebuilt el => simp [getIcon, hio]
    | descriptor d =>
      cases hc : d.category <;> cases hn : d.name <;>
        simp [getIcon, hio, hc, hn]
  · cases hav : opt.avatar with
    | absent => simp [getAvatar, hav]
    | prebuilt el => simp [getAvatar, hav]
    | descriptor d =>
      cases hs : d.imgSrc <;> simp [getAvatar, hav, hs]

theorem renderItem_ok {α : Type} {props : SelectedListBoxProps α} {a : AssistiveTextProp}
    {i : Nat} {o : OptionRec} {it : RenderedItem α}
    (h : renderItem props a i o = .ok it) :
    ∃ l, props.labels = some l ∧ it = mkItem props a l i o := by
  unfold renderItem at h
  cases hl : props.labels with
  | none => rw [hl] at h; exact absurd h (by simp)
  | some l =>
    rw [hl] at h
    refine ⟨l, rfl, ?_⟩
    injection h with h
    exact h.symm

theorem renderItems_get {α : Type} {props : SelectedListBoxProps α} {a : AssistiveTextProp} :
    ∀ (start : Nat) (sel : List OptionRec) (items : List (RenderedItem α)),
      renderItems props a start sel = .ok items →
      ∀ (i : Nat) (it : RenderedItem α), items.get? i = some it →
        ∃ o l, sel.get? i = some o ∧ props.labels = some l ∧
          it = mkItem props a l (start + i) o := by
  intro start sel
  induction sel generalizing start with
  | nil =>
    intro items h i it hit
    simp only [renderItems, Except.ok.injEq] at h
    subst h
    simp at hit
  | cons o rest ih =>
    intro items h i it hit
    unfold renderItems at h
    cases h1 : renderItem props a start o with
    | error e => rw [h1] at h; exact absurd h (by simp)
    | ok it0 =>
      rw [h1] at h
      cases h2 : renderItems props a (start + 1) rest with
      | error e => rw [h2] at h; exact absurd h (by simp)
      | ok items0 =>
        rw [h2] at h
        injection h with h
        subst h
        cases i with
        | zero =>
          simp only [List.get?] at hit
          injection hit with hit
          obtain ⟨l, hl, hmk⟩ := renderItem_ok h1
          refine ⟨o, l, rfl, hl, ?_⟩
          rw [← hit, hmk, Nat.add_zero]
        | succ j =>
          simp only [List.get?] at hit
          obtain ⟨o1, l, ho, hl, hmk⟩ := ih (start + 1) items0 h2 j it hit
          refine ⟨o1, l, by simpa using ho, hl, ?_⟩
          have harith : start + 1 + j = start + (j + 1) := by omega
          rw [hmk, harith]

theorem render_ok_some {α : Type} {props : SelectedListBoxProps α} {r : RenderedListbox α}
    (h : render props = .ok (some r)) :
    ∃ a, props.assistiveText = some a ∧
      renderItems props a 0 props.selection = .ok r.items := by
  unfold render at h
  by_cases hlen : props.renderAtSelectionLength ≤ props.selection.length
  · rw [if_pos hlen] at h
    cases ha : props.assistiveText with
    | none => rw [ha] at h; exact absurd h (by simp)
    | some a =>
      rw [ha] at h
      replace h : renderContainer props a = .ok (some r) := h
      unfold renderContainer at h
      cases hi : renderItems props a 0 props.selection with
      | error e => rw [hi] at h; exact absurd h (by simp)
      | ok items =>
        rw [hi] at h
        simp only [Except.ok.injEq, Option.some.injEq] at h
        exact ⟨a, rfl, by rw [← h]; exact hi⟩
  · rw [if_neg hlen] at h
    exact absurd h (by simp)

theorem renderItems_eq_mkItems {α : Type} {props : SelectedListBoxProps α}
    {a : AssistiveTextProp} {l : LabelsProp} (hl : props.labels = some l) :
    ∀ (start : Nat) (sel : List OptionRec),
      renderItems props a start sel = .ok (mkItems props a l start sel) := by
  intro start sel
  induction sel generalizing start with
  | nil => simp [renderItems, mkItems]
  | cons o rest ih => simp [renderItems, mkItems, renderItem, hl, ih]

theorem mkItems_length {α : Type} (props : SelectedListBoxProps α)
    (a : AssistiveTextProp) (l : LabelsProp) :
    ∀ (start : Nat) (sel : List OptionRec),
      (mkItems props a l start sel).length = sel.length := by
  intro start sel
  induction sel generalizing start with
  | nil => simp [mkItems]
  | cons o rest ih => simp [mkItems, ih]

theorem mkItems_get {α : Type} (props : SelectedListBoxProps α)
    (a : AssistiveTextProp) (l : LabelsProp) :
    ∀ (start i : Nat) (sel : List OptionRec),
      (mkItems props a l start sel).get? i =
        (sel.get? i).map (fun o => mkItem props a l (start + i) o) := by
  intro start i sel
  induction sel generalizing start i with
  | nil => simp [mkItems]
  | cons o rest ih =>
    cases i with
    | zero => simp [mkItems]
    | succ j =>
      have harith : start + 1 + j = start + (j + 1) := by omega
      simp only [mkItems, List.get?, ih (start + 1) j, harith]

theorem isActive_iff (i : Nat) (ai : Int) (v : Variant) (len : Nat) :
    isActive i ai v len = true ↔
      ((i : Int) = ai ∨ (ai = -1 ∧ i = 0) ∨
        (v = Variant.readonly ∧ len ≠ 1 ∧ i = 0)) := by
  simp only [isActive, Bool.or_eq_true, Bool.and_eq_true, beq_iff_eq, bne_iff_ne,
    ne_eq]
  tauto

/-- C1 counterexample: in the render of `c1Props` (three options,
echoing caller handlers), triggering the focus-request handler of the
token at render index 2 with a payload carrying no index hands the
caller's handler that payload unchanged: its index field is `none`,
not `2` as the claim requires for all five handlers. -/
theorem c1_focus_handler_not_index_injected_cex :
    c1FocusPayload = { index := none, payload := 7 } ∧
    c1FocusPayload ≠ { index := some 2, payload := 7 } := by
  constructor <;> decide

/-- C1 (amended): for every rendered item at render index `i`, the
click and remove-request handlers are wrapped to inject `i` into the
event payload before forwarding to the caller's handlers, while the
focus-request, focus-next-request and focus-previous-request handlers
are forwarded to the caller's handlers unchanged. -/
theorem c1_index_injection_amended {α : Type} (props : SelectedListBoxProps α)
    (r : RenderedListbox α) (i : Nat) (it : RenderedItem α)
    (hr : render props = .ok (some r)) (hi : r.items.get? i = some it)
    (ev : Event) (d : EventData) :
    (it.pill.events.onClick ev d =
        props.events.onClickPill ev { d with index := some (i : Int) } ∧
      it.pill.events.onRequestRemove ev d =
        props.events.onRequestRemove ev { d with index := some (i : Int) }) ∧
    (it.pill.events.onRequestFocus = props.events.onRequestFocus ∧
      it.pill.events.onRequestFocusOnNextPill = props.events.onRequestFocusOnNextPill ∧
      it.pill.events.onRequestFocusOnPreviousPill =
        props.events.onRequestFocusOnPreviousPill) := by
  obtain ⟨a, ha, hitems⟩ := render_ok_some hr
  obtain ⟨o, l, ho, hl, hmk⟩ := renderItems_get 0 props.selection r.items hitems i it hi
  subst hmk
  simp [mkItem]

/-- C1 witness: for the token at render index 2 of the `c1Props`
render, click and remove inject index 2, the other three handlers are
the caller's own. -/
theorem c1_index_injection_amended_witness :
    (c1Item2.pill.events.onClick { tag := 0 } { index := none, payload := 7 } =
        c1Props.events.onClickPill { tag := 0 } { index := some 2, payload := 7 } ∧
      c1Item2.pill.events.onRequestRemove { tag := 0 } { index := none, payload := 7 } =
        c1Props.events.onRequestRemove { tag := 0 } { index := some 2, payload := 7 }) ∧
    (c1Item2.pill.events.onRequestFocus = c1Props.events.onRequestFocus ∧
      c1Item2.pill.events.onRequestFocusOnNextPill =
        c1Props.events.onRequestFocusOnNextPill ∧
      c1Item2.pill.events.onRequestFocusOnPreviousPill =
        c1Props.events.onRequestFocusOnPreviousPill) := by
  exact c1_index_injection_amended c1Props c1Rendered 2 c1Item2 rfl rfl
    { tag := 0 } { index := none, payload := 7 }

/-- C2: a rendered item at render index `i` is active iff `i` equals
the active option index, or that index is the `-1` sentinel and `i` is
0, or the variant is readonly, the selection length is not 1 and `i`
is 0; and its tabIndex is 0 when active and -1 otherwise. -/
theorem c2_active_flag_iff {α : Type} (props : SelectedListBoxProps α)
    (r : RenderedListbox α) (i : Nat) (it : RenderedItem α)
    (hr : render props = .ok (some r)) (hi : r.items.get? i = some it) :
    (it.pill.active = true ↔
      ((i : Int) = props.activeOptionIndex ∨
        (props.activeOptionIndex = -1 ∧ i = 0) ∨
        (props.variant = Variant.readonly ∧ props.selection.length ≠ 1 ∧ i = 0))) ∧
    it.pill.tabIndex = if it.pill.active then 0 else -1 := by
  obtain ⟨a, ha, hitems⟩ := render_ok_some hr
  obtain ⟨o, l, ho, hl, hmk⟩ := renderItems_get 0 props.selection r.items hitems i it hi
  subst hmk
  constructor
  · have := isActive_iff (0 + i) props.activeOptionIndex props.variant
      props.selection.length
    simpa [mkItem, Nat.zero_add] using this
  · simp [mkItem]

/-- C2 witness: in the `baseProps` render (two options, active index
1, base variant), the item at render index 1 is active exactly per the
disjunction, and its tabIndex follows its active flag. -/
theorem c2_active_flag_iff_witness :
    (basePropsItem1.pill.active = true ↔
      (((1 : Nat) : Int) = baseProps.activeOptionIndex ∨
        (baseProps.activeOptionIndex = -1 ∧ (1 : Nat) = 0) ∨
        (baseProps.variant = Variant.readonly ∧
          baseProps.selection.length ≠ 1 ∧ (1 : Nat) = 0))) ∧
    basePropsItem1.pill.tabIndex = if basePropsItem1.pill.active then 0 else -1 := by
  exact c2_active_flag_iff baseProps basePropsRendered 1 basePropsItem1 rfl rfl

/-- C3: a selection shorter than `renderAtSelectionLength` renders
nothing at all. -/
theorem c3_below_threshold_renders_null {α : Type} (props : SelectedListBoxProps α)
    (h : props.selection.length < props.renderAtSelectionLength) :
    render props = .ok none := by
  unfold render
  rw [if_neg (by omega)]

/-- C3 witness: with the default threshold 1, an empty selection
renders nothing (even with `assistiveText` and `labels` undefined). -/
theorem c3_below_threshold_renders_null_witness :
    c3Props.selection.length < c3Props.renderAtSelectionLength ∧
    render c3Props = .ok none :=
  ⟨by decide, c3_below_threshold_renders_null c3Props (by decide)⟩

/-- C4: a selection at or above the threshold renders exactly one token
per Option, and the item at render index `i` carries the `i`-th Option
of the selection as its event data. -/
theorem c4_token_count_and_order {α : Type} (props : SelectedListBoxProps α)
    (a : AssistiveTextProp) (l : LabelsProp)
    (ha : props.assistiveText = some a) (hl : props.labels = some l)
    (hlen : props.renderAtSelectionLength ≤ props.selection.length) :
    ∃ r, render props = .ok (some r) ∧
      r.items.length = props.selection.length ∧
      ∀ i : Nat, (r.items.get? i).map (fun it => it.pill.eventDataOption) =
        props.selection.get? i := by
  have hrender : render props = .ok (some {
      containerClassName :=
        if props.isPillContainer then some "slds-pill_container" else none,
      containerId := props.id,
      ulClasses := "slds-listbox" ::
        (if props.isInline then ["slds-listbox_inline"]
         else ["slds-listbox_horizontal", "slds-p-top_xxx-small"]),
      ariaLabel := a.selectedListboxLabel,
      items := mkItems props a l 0 props.selection }) := by
    unfold render
    rw [if_pos hlen, ha]
    show renderContainer props a = _
    unfold renderContainer
    rw [renderItems_eq_mkItems hl]
  refine ⟨_, hrender, by simp [mkItems_length], fun i => ?_⟩
  rw [mkItems_get]
  cases props.selection.get? i <;> simp [mkItem]

/-- C4 witness: the `baseProps` render has one token per Option, in
selection order. -/
theorem c4_token_count_and_order_witness :
    ∃ r, render baseProps = .ok (some r) ∧
      r.items.length = baseProps.selection.length ∧
      ∀ i : Nat, (r.items.get? i).map (fun it => it.pill.eventDataOption) =
        baseProps.selection.get? i :=
  c4_token_count_and_order baseProps _ _ rfl rfl (by decide)

/-- C9: with a non-empty selection at or above the threshold, a render
with `assistiveText` or `labels` undefined fails with a TypeError
instead of degrading gracefully: they are de facto required props. -/
theorem c9_required_props {α : Type} (props : SelectedListBoxProps α)
    (hne : props.selection ≠ [])
    (hlen : props.renderAtSelectionLength ≤ props.selection.length)
    (habs : props.assistiveText = none ∨ props.labels = none) :
    ∃ e, render props = .error e := by
  unfold render
  rw [if_pos hlen]
  rcases habs with ha | hl
  · rw [ha]
    exact ⟨.typeError "assistiveText", rfl⟩
  · cases ha : props.assistiveText with
    | none =>
      exact ⟨.typeError "assistiveText", rfl⟩
    | some a =>
      refine ⟨.typeError "labels", ?_⟩
      show renderContainer props a = _
      unfold renderContainer
      cases hsel : props.selection with
      | nil => exact absurd hsel hne
      | cons o rest => simp [hsel, renderItems, renderItem, hl]

/-- C9 witness: `c9Props` (two options, threshold 1, `labels`
undefined) fails to render. -/
theorem c9_required_props_witness :
    c9Props.selection ≠ [] ∧
    c9Props.renderAtSelectionLength ≤ c9Props.selection.length ∧
    ∃ e, render c9Props = .error e :=
  ⟨by decide, by decide,
    c9_required_props c9Props (by decide) (by decide) (Or.inr rfl)⟩

end SelectedListbox

namespace WelcomeMat

/-- C10: with zero children, `getCount` stores a progress of NaN (the
JS result of `0 / 0 * 100`), not `0` and not an error. -/
theorem c10_zero_children_progress_nan :
    (getCount []).progress = JSNum.nan ∧ (getCount []).progress ≠ JSNum.num 0 := by
  constructor <;> decide

end WelcomeMat
